import Mathlib

/-!
Verification of `src/dvclive/plots/sklearn.py`: the `SKLearnPlot` adapter
family (`Roc`, `PrecisionRecall`, `Det`, `ConfusionMatrix`, `Calibration`).
The module is a thin layer that validates a 2-tuple input, resolves an
output path (creating parent directories), merges static display
properties, and shapes arrays returned by an external statistics library
into row-oriented JSON written to one file per adapter.
-/

set_option autoImplicit false

/-- A Python runtime value, as far as `could_log` can distinguish them:
tuples, lists, dicts, and scalars (ints, strings, None). -/
inductive PyVal where
  | tuple : List PyVal → PyVal
  | list : List PyVal → PyVal
  | dict : List (PyVal × PyVal) → PyVal
  | int : Int → PyVal
  | str : String → PyVal
  | none : PyVal

/-- Embedding of `SKLearnPlot.could_log`:
`isinstance(val, tuple) and len(val) == 2` returns `True`, else `False`. -/
def SKLearnPlot.could_log : PyVal → Bool
  | .tuple l => l.length == 2
  | _ => false

/-- Embedding of Python `s.replace(".json", "")` on the character list of
the name: removes every non-overlapping occurrence of `".json"`, scanning
left to right. -/
def stripJsonAux : List Char → List Char
  | '.' :: 'j' :: 's' :: 'o' :: 'n' :: rest => stripJsonAux rest
  | c :: rest => c :: stripJsonAux rest
  | [] => []

/-- `name.replace(".json", "")` as performed by `SKLearnPlot.__init__`. -/
def stripJson (s : String) : String :=
  ⟨stripJsonAux s.data⟩

/-- An adapter instance: the fields set on `self` by the constructors.
`output_folder` already includes the subfolder (see `Data.init`). -/
structure SKAdapter where
  name : String
  output_folder : List String
deriving DecidableEq

/-- `SKLearnPlot.subfolder = "sklearn"`. -/
def SKLearnPlot.subfolder : String := "sklearn"

/-- Modelled from the spec: the `Data` base-class constructor
(`dvclive/plots/base.py`, not under `src/`). Per the spec's invariant
"path = `<output_folder>/<subfolder>/<name>.json`", it stores the given
name and joins the output folder with the class's subfolder. -/
def Data.init (name : String) (output_folder : List String)
    (subfolder : String) : SKAdapter :=
  { name := name, output_folder := output_folder ++ [subfolder] }

/-- Embedding of `SKLearnPlot.__init__`: calls `super().__init__` and then
re-assigns `self.name = self.name.replace(".json", "")`. -/
def SKLearnPlot.mk (name : String) (output_folder : List String) : SKAdapter :=
  let a := Data.init name output_folder SKLearnPlot.subfolder
  { a with name := stripJson a.name }

/-- JSON values as written by this module. -/
inductive Json where
  | str : String → Json
  | num : Rat → Json
  | arr : List Json → Json
  | obj : List (String × Json) → Json

/-- Filesystem state: the set of existing directories and the files
written so far (most recent write first). -/
structure FS where
  dirs : List (List String)
  files : List (List String × Json)

/-- All ancestor directories of a directory path, itself included:
what `mkdir(parents=True)` creates. -/
def ancestors : List String → List (List String)
  | [] => [[]]
  | c :: rest => [] :: (ancestors rest).map (c :: ·)

/-- `Path.mkdir(exist_ok=True, parents=True)`: makes the directory and
every ancestor exist; idempotent on existing directories. -/
def FS.mkdirParents (fs : FS) (dir : List String) : FS :=
  { fs with dirs := ancestors dir ++ fs.dirs }

/-- Whole-file write of JSON `j` at path `p` (last writer wins). -/
def FS.writeFile (fs : FS) (p : List String) (j : Json) : FS :=
  { fs with files := (p, j) :: fs.files }

/-- The file currently stored at path `p`, if any. -/
def FS.fileAt (fs : FS) (p : List String) : Option Json :=
  (fs.files.find? (fun c => decide (c.1 = p))).map (·.2)

/-- The pure part of the `SKLearnPlot.output_path` property:
`Path(f"{self.output_folder / self.name}.json")`. -/
def SKLearnPlot.output_path (a : SKAdapter) : List String :=
  a.output_folder ++ [a.name ++ ".json"]

/-- Embedding of evaluating the `output_path` property: computes the path
and performs `_path.parent.mkdir(exist_ok=True, parents=True)`. -/
def SKLearnPlot.resolveOutputPath (a : SKAdapter) (fs : FS) :
    List String × FS :=
  let p := SKLearnPlot.output_path a
  (p, fs.mkdirParents p.dropLast)

/-- Modelled from the spec: `dump_json` (`dvclive/serialize.py`, not under
`src/`) writes the given data to the given path as UTF-8 JSON; one whole
file write. -/
def dump_json (data : Json) (path : List String) (fs : FS) : FS :=
  fs.writeFile path data

/-- A Python error raised by an external routine (e.g. `sklearn`). -/
structure PyErr where
  msg : String
deriving DecidableEq

/-- A Python scalar used as a label in the confusion-matrix input. -/
inductive PyScalar where
  | s : String → PyScalar
  | i : Int → PyScalar
deriving DecidableEq

/-- Python `str()` on a label scalar. -/
def pyStr : PyScalar → String
  | .s v => v
  | .i v => toString v

/-- Dictionary read: first entry with the given key, as Python dicts have
unique keys. -/
def lookupKey (d : List (String × String)) (k : String) : Option String :=
  (d.find? (fun p => decide (p.1 = k))).map (·.2)

/-- Python `d[k] = v` on a dict: updates the existing entry in place, or
appends a new one in insertion order. -/
def dictSet (d : List (String × String)) (k v : String) :
    List (String × String) :=
  if d.any (fun p => decide (p.1 = k)) then
    d.map (fun p => if p.1 = k then (k, v) else p)
  else
    d ++ [(k, v)]

/-- `Roc.DEFAULT_PROPERTIES`. -/
def Roc.DEFAULT_PROPERTIES : List (String × String) :=
  [("template", "simple"), ("x", "fpr"), ("y", "tpr"),
   ("title", "Receiver operating characteristic (ROC)"),
   ("x_label", "False Positive Rate"), ("y_label", "True Positive Rate")]

/-- `PrecisionRecall.DEFAULT_PROPERTIES`. -/
def PrecisionRecall.DEFAULT_PROPERTIES : List (String × String) :=
  [("template", "simple"), ("x", "recall"), ("y", "precision"),
   ("title", "Precision-Recall Curve"),
   ("x_label", "Recall"), ("y_label", "Precision")]

/-- `Det.DEFAULT_PROPERTIES`. -/
def Det.DEFAULT_PROPERTIES : List (String × String) :=
  [("template", "simple"), ("x", "fpr"), ("y", "fnr"),
   ("title", "Detection error tradeoff (DET)"),
   ("x_label", "False Positive Rate"), ("y_label", "False Negative Rate")]

/-- `ConfusionMatrix.DEFAULT_PROPERTIES`. -/
def ConfusionMatrix.DEFAULT_PROPERTIES : List (String × String) :=
  [("template", "confusion"), ("x", "actual"), ("y", "predicted"),
   ("title", "Confusion Matrix"),
   ("x_label", "True Label"), ("y_label", "Predicted Label")]

/-- `Calibration.DEFAULT_PROPERTIES`. -/
def Calibration.DEFAULT_PROPERTIES : List (String × String) :=
  [("template", "simple"), ("x", "prob_pred"), ("y", "prob_true"),
   ("title", "Calibration Curve"),
   ("x_label", "Mean Predicted Probability"),
   ("y_label", "Fraction of Positives")]

/-- `ConfusionMatrix.__init__`: `self.normalized = kwargs.get("normalized")
or False`; with a boolean (or absent) keyword this is the flag itself, or
`False` when absent. -/
def ConfusionMatrix.initNormalized (kw : Option Bool) : Bool :=
  match kw with
  | some b => b
  | Option.none => false

/-- Value of the dict returned by `ConfusionMatrix.get_properties`:
a deep copy of the defaults, then `properties["template"] =
"confusion_normalized"` when `self.normalized` is set. -/
def ConfusionMatrix.get_properties (normalized : Bool) :
    List (String × String) :=
  let properties := ConfusionMatrix.DEFAULT_PROPERTIES
  if normalized then dictSet properties "template" "confusion_normalized"
  else properties

/-- `Roc.dump`'s row records: `zip(fpr, tpr, roc_thresholds)` mapped to
`{"fpr": fp, "tpr": tp, "threshold": t}`. -/
def Roc.rows : List Rat → List Rat → List Rat → List Json
  | fp :: fps, tp :: tps, t :: ts =>
      Json.obj [("fpr", .num fp), ("tpr", .num tp), ("threshold", .num t)]
        :: Roc.rows fps tps ts
  | _, _, _ => []

/-- The JSON document `Roc.dump` serializes: `{"roc": [...]}`. -/
def Roc.dumpJson (fpr tpr th : List Rat) : Json :=
  Json.obj [("roc", Json.arr (Roc.rows fpr tpr th))]

/-- Embedding of `Roc.dump`: first `metrics.roc_curve` runs (its outcome
is the `curve` argument); only when it returns does `self.output_path`
get evaluated (creating the parent directory) and the file written. -/
def Roc.dump (a : SKAdapter)
    (curve : Except PyErr (List Rat × List Rat × List Rat)) (fs : FS) :
    Except PyErr Unit × FS :=
  match curve with
  | .error e => (.error e, fs)
  | .ok (fpr, tpr, th) =>
      let doc := Roc.dumpJson fpr tpr th
      let (p, fs') := SKLearnPlot.resolveOutputPath a fs
      (.ok (), dump_json doc p fs')

/-- `PrecisionRecall.dump`'s row records. -/
def PrecisionRecall.rows : List Rat → List Rat → List Rat → List Json
  | p :: ps, r :: rs, t :: ts =>
      Json.obj [("precision", .num p), ("recall", .num r),
                ("threshold", .num t)]
        :: PrecisionRecall.rows ps rs ts
  | _, _, _ => []

/-- The JSON document `PrecisionRecall.dump` serializes. -/
def PrecisionRecall.dumpJson (prc rcl th : List Rat) : Json :=
  Json.obj [("precision_recall",
             Json.arr (PrecisionRecall.rows prc rcl th))]

/-- Embedding of `PrecisionRecall.dump`: `metrics.precision_recall_curve`
runs before the output path is evaluated. -/
def PrecisionRecall.dump (a : SKAdapter)
    (curve : Except PyErr (List Rat × List Rat × List Rat)) (fs : FS) :
    Except PyErr Unit × FS :=
  match curve with
  | .error e => (.error e, fs)
  | .ok (prc, rcl, th) =>
      let doc := PrecisionRecall.dumpJson prc rcl th
      let (p, fs') := SKLearnPlot.resolveOutputPath a fs
      (.ok (), dump_json doc p fs')

/-- `Det.dump`'s row records. -/
def Det.rows : List Rat → List Rat → List Rat → List Json
  | fp :: fps, fn :: fns, t :: ts =>
      Json.obj [("fpr", .num fp), ("fnr", .num fn), ("threshold", .num t)]
        :: Det.rows fps fns ts
  | _, _, _ => []

/-- The JSON document `Det.dump` serializes. -/
def Det.dumpJson (fpr fnr th : List Rat) : Json :=
  Json.obj [("det", Json.arr (Det.rows fpr fnr th))]

/-- Embedding of `Det.dump`: `metrics.det_curve` runs before the output
path is evaluated. -/
def Det.dump (a : SKAdapter)
    (curve : Except PyErr (List Rat × List Rat × List Rat)) (fs : FS) :
    Except PyErr Unit × FS :=
  match curve with
  | .error e => (.error e, fs)
  | .ok (fpr, fnr, th) =>
      let doc := Det.dumpJson fpr fnr th
      let (p, fs') := SKLearnPlot.resolveOutputPath a fs
      (.ok (), dump_json doc p fs')

/-- `Calibration.dump`'s row records. -/
def Calibration.rows : List Rat → List Rat → List Json
  | pt :: pts, pp :: pps =>
      Json.obj [("prob_true", .num pt), ("prob_pred", .num pp)]
        :: Calibration.rows pts pps
  | _, _ => []

/-- The JSON document `Calibration.dump` serializes. -/
def Calibration.dumpJson (prob_true prob_pred : List Rat) : Json :=
  Json.obj [("calibration",
             Json.arr (Calibration.rows prob_true prob_pred))]

/-- Embedding of `Calibration.dump`: `calibration.calibration_curve` runs
before the output path is evaluated. -/
def Calibration.dump (a : SKAdapter)
    (curve : Except PyErr (List Rat × List Rat)) (fs : FS) :
    Except PyErr Unit × FS :=
  match curve with
  | .error e => (.error e, fs)
  | .ok (prob_true, prob_pred) =>
      let doc := Calibration.dumpJson prob_true prob_pred
      let (p, fs') := SKLearnPlot.resolveOutputPath a fs
      (.ok (), dump_json doc p fs')

/-- `ConfusionMatrix.dump`'s row records: `zip(val[0], val[1])` mapped to
`{"actual": str(actual), "predicted": str(predicted)}`. -/
def ConfusionMatrix.rows (actual predicted : List PyScalar) : List Json :=
  (actual.zip predicted).map (fun ap =>
    Json.obj [("actual", .str (pyStr ap.1)),
              ("predicted", .str (pyStr ap.2))])

/-- The JSON document `ConfusionMatrix.dump` serializes: a bare array,
no wrapping top-level key. -/
def ConfusionMatrix.dumpJson (actual predicted : List PyScalar) : Json :=
  Json.arr (ConfusionMatrix.rows actual predicted)

/-- Embedding of `ConfusionMatrix.dump`: no external call; the `kwargs`
parameter is accepted and ignored (`noqa: ARG002`). Always returns. -/
def ConfusionMatrix.dump (a : SKAdapter)
    (val : List PyScalar × List PyScalar)
    (kwargs : List (String × PyScalar)) (fs : FS) : FS :=
  let _ := kwargs
  let doc := ConfusionMatrix.dumpJson val.1 val.2
  let (p, fs') := SKLearnPlot.resolveOutputPath a fs
  dump_json doc p fs'

/-- A store of Python dict objects: address → contents, plus the next
fresh address. Models object identity, which `copy.deepcopy` is about. -/
structure PropsStore where
  cells : List (Nat × List (String × String))
  nextAddr : Nat

/-- The dict object at address `a`, if allocated. -/
def PropsStore.cellAt (st : PropsStore) (a : Nat) :
    Option (List (String × String)) :=
  (st.cells.find? (fun c => decide (c.1 = a))).map (·.2)

/-- Allocate a fresh dict object with the given contents. -/
def PropsStore.alloc (st : PropsStore) (v : List (String × String)) :
    Nat × PropsStore :=
  (st.nextAddr, ⟨(st.nextAddr, v) :: st.cells, st.nextAddr + 1⟩)

/-- In-place mutation `obj[k] = v` on the dict object at address `a`. -/
def PropsStore.setKey (st : PropsStore) (a : Nat) (k v : String) :
    PropsStore :=
  ⟨st.cells.map (fun c => if c.1 = a then (c.1, dictSet c.2 k v) else c),
   st.nextAddr⟩

/-- Store well-formedness: every allocated address is below `nextAddr`. -/
def PropsStore.WF (st : PropsStore) : Prop :=
  ∀ c ∈ st.cells, c.1 < st.nextAddr

/-- `get_properties` of the `Roc`-shaped variants, at the object level:
`copy.deepcopy(self.DEFAULT_PROPERTIES)` reads the class's defaults object
at address `d` and returns a freshly allocated object with equal
contents. -/
def getPropertiesObj (st : PropsStore) (d : Nat) : Nat × PropsStore :=
  st.alloc ((st.cellAt d).getD [])

/-- `ConfusionMatrix.get_properties` at the object level: deep-copies the
defaults, then mutates the fresh copy's `"template"` entry when
`self.normalized` is set. -/
def ConfusionMatrix.getPropertiesAt (normalized : Bool) (st : PropsStore)
    (d : Nat) : Nat × PropsStore :=
  let ap := getPropertiesObj st d
  (ap.1, if normalized then
           ap.2.setKey ap.1 "template" "confusion_normalized"
         else ap.2)

/-! ### Helper lemmas -/

theorem self_mem_ancestors (l : List String) : l ∈ ancestors l := by
  induction l with
  | nil => simp [ancestors]
  | cons c rest ih =>
    simp only [ancestors, List.mem_cons, List.mem_map]
    exact Or.inr ⟨rest, ih, rfl⟩

theorem dropLast_append_single {α : Type} (l : List α) (a : α) :
    (l ++ [a]).dropLast = l := by
  simp

theorem fileAt_writeFile (fs : FS) (p : List String) (j : Json) :
    (fs.writeFile p j).fileAt p = some j := by
  simp [FS.fileAt, FS.writeFile, List.find?]

/-! ### Claims -/

/-- C1: `could_log(x)` returns `True` exactly when `x` is a 2-element
tuple, and `False` (never an exception: the function is total) on
1- and 3-element tuples, lists, dicts, and scalars. -/
theorem could_log_iff_pair (x : PyVal) :
    SKLearnPlot.could_log x = true ↔ ∃ a b, x = PyVal.tuple [a, b] := by
  cases x <;>
    simp [SKLearnPlot.could_log, List.length_eq_two]

/-- C3: constructing an adapter with `name="foo.json"` yields the same
adapter state and the same output path as `name="foo"` with the same
output folder: the redundant `.json` extension is stripped. -/
theorem name_json_suffix_equiv (folder : List String) :
    SKLearnPlot.mk "foo.json" folder = SKLearnPlot.mk "foo" folder
    ∧ SKLearnPlot.output_path (SKLearnPlot.mk "foo.json" folder)
        = SKLearnPlot.output_path (SKLearnPlot.mk "foo" folder) :=
  ⟨rfl, rfl⟩

/-- C9: name normalization removes every occurrence of `".json"`, not just
a trailing extension: `"a.json_b"` is stored as `"a_b"` (same adapter and
output path as `name="a_b"`), and `"foo.json.json"` as `"foo"`. -/
theorem name_strips_all_json_occurrences (folder : List String) :
    (SKLearnPlot.mk "a.json_b" folder).name = "a_b"
    ∧ SKLearnPlot.mk "a.json_b" folder = SKLearnPlot.mk "a_b" folder
    ∧ SKLearnPlot.output_path (SKLearnPlot.mk "a.json_b" folder)
        = SKLearnPlot.output_path (SKLearnPlot.mk "a_b" folder)
    ∧ (SKLearnPlot.mk "foo.json.json" folder).name = "foo"
    ∧ SKLearnPlot.mk "foo.json.json" folder = SKLearnPlot.mk "foo" folder
    ∧ SKLearnPlot.output_path (SKLearnPlot.mk "foo.json.json" folder)
        = SKLearnPlot.output_path (SKLearnPlot.mk "foo" folder) :=
  ⟨rfl, rfl, rfl, rfl, rfl, rfl⟩

/-- C8: for `Roc`, `PrecisionRecall`, `Det`, and `Calibration`, when the
external statistical routine raises, `dump` propagates the error and the
filesystem is untouched — no directory is created and no file is written,
because the output path is only evaluated after the external call
succeeds. -/
theorem dump_error_no_side_effect (a : SKAdapter) (e : PyErr) (fs : FS) :
    Roc.dump a (.error e) fs = (.error e, fs)
    ∧ PrecisionRecall.dump a (.error e) fs = (.error e, fs)
    ∧ Det.dump a (.error e) fs = (.error e, fs)
    ∧ Calibration.dump a (.error e) fs = (.error e, fs) :=
  ⟨rfl, rfl, rfl, rfl⟩

/-- C10: `ConfusionMatrix.dump` never fails on mismatched input lengths:
it pairs elements positionally up to the shorter sequence (its record
count is the minimum of the two lengths), and the `kwargs` argument has
no effect on the result. -/
theorem cm_dump_truncates_and_ignores_kwargs
    (actual predicted : List PyScalar)
    (kw kw' : List (String × PyScalar)) (a : SKAdapter) (fs : FS) :
    (ConfusionMatrix.rows actual predicted).length
      = min actual.length predicted.length
    ∧ ConfusionMatrix.dump a (actual, predicted) kw fs
        = ConfusionMatrix.dump a (actual, predicted) kw' fs := by
  refine ⟨?_, rfl⟩
  simp [ConfusionMatrix.rows]

theorem mem_dirs_resolveOutputPath (a : SKAdapter) (fs : FS) :
    a.output_folder ∈ (SKLearnPlot.resolveOutputPath a fs).2.dirs := by
  show a.output_folder
    ∈ (fs.mkdirParents (SKLearnPlot.output_path a).dropLast).dirs
  rw [SKLearnPlot.output_path, dropLast_append_single]
  exact List.mem_append_left _ (self_mem_ancestors _)

/-- C2: for any adapter, the resolved output path is
`<output_folder>/<subfolder>/<name>.json`, and the parent directory
`<output_folder>/<subfolder>` exists after the path is resolved — in
particular after `ConfusionMatrix.dump` and a successful `Roc.dump` —
for an arbitrary starting filesystem, i.e. without requiring the parent
to pre-exist. -/
theorem output_path_invariant (name : String) (folder : List String)
    (fs : FS) (val : List PyScalar × List PyScalar)
    (kwargs : List (String × PyScalar))
    (r : List Rat × List Rat × List Rat) :
    (SKLearnPlot.resolveOutputPath (SKLearnPlot.mk name folder) fs).1
      = folder ++ [SKLearnPlot.subfolder,
                   (SKLearnPlot.mk name folder).name ++ ".json"]
    ∧ folder ++ [SKLearnPlot.subfolder]
        ∈ (SKLearnPlot.resolveOutputPath
            (SKLearnPlot.mk name folder) fs).2.dirs
    ∧ folder ++ [SKLearnPlot.subfolder]
        ∈ (ConfusionMatrix.dump (SKLearnPlot.mk name folder) val
            kwargs fs).dirs
    ∧ folder ++ [SKLearnPlot.subfolder]
        ∈ (Roc.dump (SKLearnPlot.mk name folder) (.ok r) fs).2.dirs := by
  obtain ⟨r1, r2, r3⟩ := r
  refine ⟨?_, ?_, ?_, ?_⟩
  · show ((folder ++ [SKLearnPlot.subfolder])
        ++ [(SKLearnPlot.mk name folder).name ++ ".json"]) = _
    simp
  · exact mem_dirs_resolveOutputPath (SKLearnPlot.mk name folder) fs
  · exact mem_dirs_resolveOutputPath (SKLearnPlot.mk name folder) fs
  · exact mem_dirs_resolveOutputPath (SKLearnPlot.mk name folder) fs

/-- C6: on input `(["cat","dog"], ["cat","cat"])` the confusion-matrix
variant serializes a bare JSON array (no wrapping top-level key) equal to
`[{"actual":"cat","predicted":"cat"},{"actual":"dog","predicted":"cat"}]`,
and `dump` writes exactly that document at the output path. -/
theorem cm_dump_cat_dog (a : SKAdapter) (fs : FS)
    (kwargs : List (String × PyScalar)) :
    ConfusionMatrix.dumpJson [.s "cat", .s "dog"] [.s "cat", .s "cat"]
      = Json.arr
          [Json.obj [("actual", .str "cat"), ("predicted", .str "cat")],
           Json.obj [("actual", .str "dog"), ("predicted", .str "cat")]]
    ∧ (ConfusionMatrix.dump a ([.s "cat", .s "dog"], [.s "cat", .s "cat"])
         kwargs fs).fileAt (SKLearnPlot.output_path a)
        = some (Json.arr
          [Json.obj [("actual", .str "cat"), ("predicted", .str "cat")],
           Json.obj [("actual", .str "dog"), ("predicted", .str "cat")]]) := by
  refine ⟨rfl, ?_⟩
  exact fileAt_writeFile _ _ _

theorem Roc.rows_length (fpr tpr th : List Rat) :
    (Roc.rows fpr tpr th).length
      = min fpr.length (min tpr.length th.length) := by
  induction fpr generalizing tpr th with
  | nil => cases tpr <;> cases th <;> simp [Roc.rows]
  | cons f fs ih =>
    cases tpr with
    | nil => cases th <;> simp [Roc.rows]
    | cons t ts =>
      cases th with
      | nil => simp [Roc.rows]
      | cons h hs =>
        simp only [Roc.rows, List.length_cons, ih]
        omega

theorem Roc.rows_get (fpr tpr th : List Rat) (i : Nat) (fp tp t : Rat)
    (hf : fpr[i]? = some fp) (ht : tpr[i]? = some tp)
    (hh : th[i]? = some t) :
    (Roc.rows fpr tpr th)[i]? = some (Json.obj
      [("fpr", Json.num fp), ("tpr", Json.num tp),
       ("threshold", Json.num t)]) := by
  induction fpr generalizing tpr th i with
  | nil => simp at hf
  | cons f fs ih =>
    cases tpr with
    | nil => simp at ht
    | cons tp1 tps =>
      cases th with
      | nil => simp at hh
      | cons t1 ts =>
        cases i with
        | zero =>
          simp only [List.getElem?_cons_zero, Option.some.injEq]
            at hf ht hh
          subst hf; subst ht; subst hh
          simp [Roc.rows]
        | succ n =>
          simp only [List.getElem?_cons_succ] at hf ht hh
          simpa [Roc.rows] using ih tps ts n hf ht hh

/-- C5: for a 2-tuple input whose ROC computation returns arrays
`(fpr, tpr, thresholds)` of equal length, `Roc.dump` writes a JSON object
with the single top-level key `"roc"`, whose array has exactly one record
per threshold point, each record having exactly the keys `fpr`, `tpr`,
`threshold` taken positionally from the three returned arrays. -/
theorem roc_dump_contents (fpr tpr th : List Rat)
    (hf : fpr.length = th.length) (ht : tpr.length = th.length) :
    Roc.dumpJson fpr tpr th
      = Json.obj [("roc", Json.arr (Roc.rows fpr tpr th))]
    ∧ (∀ (a : SKAdapter) (fs : FS),
        (Roc.dump a (.ok (fpr, tpr, th)) fs).2.fileAt
            (SKLearnPlot.output_path a)
          = some (Roc.dumpJson fpr tpr th))
    ∧ (Roc.rows fpr tpr th).length = th.length
    ∧ ∀ (i : Nat) (fp tp t : Rat), fpr[i]? = some fp →
        tpr[i]? = some tp → th[i]? = some t →
        (Roc.rows fpr tpr th)[i]? = some (Json.obj
          [("fpr", Json.num fp), ("tpr", Json.num tp),
           ("threshold", Json.num t)]) := by
  refine ⟨rfl, ?_, ?_, ?_⟩
  · intro a fs
    exact fileAt_writeFile _ _ _
  · rw [Roc.rows_length, hf, ht]
    omega
  · intro i fp tp t h1 h2 h3
    exact Roc.rows_get fpr tpr th i fp tp t h1 h2 h3

/-- Witness for `roc_dump_contents` at the concrete arrays
`fpr = [0, 1/2]`, `tpr = [1, 1]`, `thresholds = [2, 1]`. -/
theorem roc_dump_contents_witness :
    (Roc.rows [(0 : Rat), 1/2] [1, 1] [2, 1]).length
      = [(2 : Rat), 1].length :=
  (roc_dump_contents [(0 : Rat), 1/2] [1, 1] [2, 1] rfl rfl).2.2.1

/-- C4: `ConfusionMatrix.get_properties` yields
`template == "confusion_normalized"` when constructed with
`normalized=true`; with `normalized=false` or no `normalized` keyword it
yields `template == "confusion"`; every other property field is the same
in both cases. -/
theorem cm_template_normalized :
    lookupKey (ConfusionMatrix.get_properties true) "template"
      = some "confusion_normalized"
    ∧ lookupKey (ConfusionMatrix.get_properties false) "template"
      = some "confusion"
    ∧ ConfusionMatrix.initNormalized Option.none = false
    ∧ ConfusionMatrix.get_properties
        (ConfusionMatrix.initNormalized Option.none)
      = ConfusionMatrix.get_properties false
    ∧ ∀ k, k ≠ "template" →
        lookupKey (ConfusionMatrix.get_properties true) k
          = lookupKey (ConfusionMatrix.get_properties false) k := by
  refine ⟨rfl, rfl, rfl, rfl, ?_⟩
  intro k hk
  show lookupKey
      [("template", "confusion_normalized"), ("x", "actual"),
       ("y", "predicted"), ("title", "Confusion Matrix"),
       ("x_label", "True Label"), ("y_label", "Predicted Label")] k
    = lookupKey
      [("template", "confusion"), ("x", "actual"),
       ("y", "predicted"), ("title", "Confusion Matrix"),
       ("x_label", "True Label"), ("y_label", "Predicted Label")] k
  have hd : ("template" = k) = False := by
    simp [Ne.symm hk]
  simp only [lookupKey, List.find?, hd, decide_False]

/-- Witness for `cm_template_normalized`: the non-template field `"x"` is
identical whether or not the matrix is normalized. -/
theorem cm_template_normalized_witness :
    lookupKey (ConfusionMatrix.get_properties true) "x"
      = lookupKey (ConfusionMatrix.get_properties false) "x" :=
  cm_template_normalized.2.2.2.2 "x" (by decide)

theorem find?_map_setEntry (a d : Nat) (k v : String) (h : d ≠ a) :
    ∀ (cs : List (Nat × List (String × String))),
    ((cs.map (fun c => if c.1 = a then (c.1, dictSet c.2 k v) else c)).find?
        (fun c => decide (c.1 = d))).map (·.2)
      = (cs.find? (fun c => decide (c.1 = d))).map (·.2)
  | [] => rfl
  | c :: cs => by
    have h1 : (if c.1 = a then (c.1, dictSet c.2 k v) else c).1 = c.1 := by
      by_cases hca : c.1 = a <;> simp [hca]
    by_cases hcd : c.1 = d
    · have hfc : (if c.1 = a then (c.1, dictSet c.2 k v) else c) = c :=
        if_neg (fun hca => h (hcd.symm.trans hca))
      rw [List.map_cons, hfc,
        List.find?_cons_of_pos _ (by simp [hcd]),
        List.find?_cons_of_pos _ (by simp [hcd])]
    · rw [List.map_cons,
        List.find?_cons_of_neg _ (by simp [h1, hcd]),
        List.find?_cons_of_neg _ (by simp [hcd])]
      exact find?_map_setEntry a d k v h cs

theorem cellAt_setKey_of_ne (st : PropsStore) (a d : Nat) (k v : String)
    (h : d ≠ a) : (st.setKey a k v).cellAt d = st.cellAt d := by
  unfold PropsStore.setKey PropsStore.cellAt
  exact find?_map_setEntry a d k v h st.cells

theorem cellAt_alloc_self (st : PropsStore) (v : List (String × String)) :
    ((st.alloc v).2).cellAt (st.alloc v).1 = some v := by
  simp [PropsStore.alloc, PropsStore.cellAt, List.find?]

theorem cellAt_alloc_of_ne (st : PropsStore) (v : List (String × String))
    (d : Nat) (h : d ≠ st.nextAddr) :
    ((st.alloc v).2).cellAt d = st.cellAt d := by
  simp [PropsStore.alloc, PropsStore.cellAt, List.find?, Ne.symm h]

theorem cellAt_lt_nextAddr (st : PropsStore) (d : Nat)
    (c : List (String × String)) (hwf : st.WF)
    (h : st.cellAt d = some c) : d < st.nextAddr := by
  unfold PropsStore.cellAt at h
  cases hf : st.cells.find? (fun c => decide (c.1 = d)) with
  | none => rw [hf] at h; simp at h
  | some e =>
    have he := List.mem_of_find?_eq_some hf
    have hpe := List.find?_some hf
    simp only [decide_eq_true_eq] at hpe
    exact hpe ▸ hwf e he

theorem setKey_nextAddr (st : PropsStore) (a : Nat) (k v : String) :
    (st.setKey a k v).nextAddr = st.nextAddr := rfl

/-- C7: `get_properties` returns a fresh deep copy of the variant's static
defaults (same contents, a different object); mutating the returned object
leaves the shared defaults unchanged and never affects the object returned
by a subsequent call. This holds for the plain variants and, whatever its
`normalized` flag, for `ConfusionMatrix`. -/
theorem get_properties_fresh_copy (st : PropsStore) (d : Nat)
    (defaults : List (String × String)) (k v : String)
    (hwf : st.WF) (hd : st.cellAt d = some defaults)
    (_hvar : defaults = Roc.DEFAULT_PROPERTIES
      ∨ defaults = PrecisionRecall.DEFAULT_PROPERTIES
      ∨ defaults = Det.DEFAULT_PROPERTIES
      ∨ defaults = ConfusionMatrix.DEFAULT_PROPERTIES
      ∨ defaults = Calibration.DEFAULT_PROPERTIES) :
    (getPropertiesObj st d).2.cellAt (getPropertiesObj st d).1
      = some defaults
    ∧ (getPropertiesObj st d).1 ≠ d
    ∧ ((getPropertiesObj st d).2.setKey (getPropertiesObj st d).1
        k v).cellAt d = some defaults
    ∧ (getPropertiesObj ((getPropertiesObj st d).2.setKey
          (getPropertiesObj st d).1 k v) d).2.cellAt
        (getPropertiesObj ((getPropertiesObj st d).2.setKey
          (getPropertiesObj st d).1 k v) d).1 = some defaults
    ∧ ∀ nrm : Bool,
        ((ConfusionMatrix.getPropertiesAt nrm st d).2.setKey
            (ConfusionMatrix.getPropertiesAt nrm st d).1 k v).cellAt d
          = some defaults := by
  have hlt : d < st.nextAddr := cellAt_lt_nextAddr st d defaults hwf hd
  have hne : d ≠ st.nextAddr := Nat.ne_of_lt hlt
  have hg : getPropertiesObj st d = st.alloc defaults := by
    show st.alloc ((st.cellAt d).getD []) = st.alloc defaults
    rw [hd]
    rfl
  have h3 : ((getPropertiesObj st d).2.setKey (getPropertiesObj st d).1
      k v).cellAt d = some defaults := by
    rw [hg, cellAt_setKey_of_ne (st.alloc defaults).2
        (st.alloc defaults).1 d k v hne,
      cellAt_alloc_of_ne st defaults d hne]
    exact hd
  refine ⟨?_, ?_, h3, ?_, ?_⟩
  · rw [hg]
    exact cellAt_alloc_self st defaults
  · rw [hg]
    exact Ne.symm hne
  · have hg2 : getPropertiesObj ((getPropertiesObj st d).2.setKey
        (getPropertiesObj st d).1 k v) d
        = ((getPropertiesObj st d).2.setKey
            (getPropertiesObj st d).1 k v).alloc defaults := by
      show ((getPropertiesObj st d).2.setKey
            (getPropertiesObj st d).1 k v).alloc
          ((((getPropertiesObj st d).2.setKey
            (getPropertiesObj st d).1 k v).cellAt d).getD [])
        = ((getPropertiesObj st d).2.setKey
            (getPropertiesObj st d).1 k v).alloc defaults
      rw [h3]
      rfl
    rw [hg2]
    exact cellAt_alloc_self _ defaults
  · intro nrm
    cases nrm with
    | false =>
      simp only [ConfusionMatrix.getPropertiesAt, Bool.false_eq_true,
        if_false]
      exact h3
    | true =>
      simp only [ConfusionMatrix.getPropertiesAt, if_true]
      rw [hg, cellAt_setKey_of_ne
          ((st.alloc defaults).2.setKey (st.alloc defaults).1
            "template" "confusion_normalized")
          (st.alloc defaults).1 d k v hne,
        cellAt_setKey_of_ne (st.alloc defaults).2 (st.alloc defaults).1
          d "template" "confusion_normalized" hne,
        cellAt_alloc_of_ne st defaults d hne]
      exact hd

/-- Witness for `get_properties_fresh_copy`: a one-object store holding
the `Roc` defaults at address 0; mutating the copy returned by
`get_properties` leaves the defaults intact. -/
theorem get_properties_fresh_copy_witness :
    ((getPropertiesObj ⟨[(0, Roc.DEFAULT_PROPERTIES)], 1⟩ 0).2.setKey
        (getPropertiesObj ⟨[(0, Roc.DEFAULT_PROPERTIES)], 1⟩ 0).1
        "title" "changed").cellAt 0 = some Roc.DEFAULT_PROPERTIES :=
  (get_properties_fresh_copy ⟨[(0, Roc.DEFAULT_PROPERTIES)], 1⟩ 0
      Roc.DEFAULT_PROPERTIES "title" "changed"
      (by intro c hc; simp only [List.mem_singleton] at hc; simp [hc])
      rfl (Or.inl rfl)).2.2.1
